import Mathlib

/-!
Shallow embedding of the edgestatus server handlers: plan-tier quota
enforcement, incident and maintenance lifecycle coordination, cascade
deletion, and affected-component linking, modelled over an explicit
relational state.  Timestamps are modelled as natural numbers; every
handler takes the current clock value as the `now` argument standing for
`new Date()`.  Each handler returns the surfaced result (`Except` with the
thrown error message) together with the storage state after the call, so
that partial commits of non-transactional handlers are observable.
-/

namespace EdgeStatus

abbrev Time := Nat

inductive PlanType
  | free
  | pro
  | plus
  | enterprise
deriving Repr, DecidableEq

inductive UserRole
  | owner
  | admin
  | member
  | viewer
deriving Repr, DecidableEq

inductive IncidentStatus
  | investigating
  | identified
  | monitoring
  | resolved
deriving Repr, DecidableEq

inductive MaintenanceStatus
  | scheduled
  | in_progress
  | completed
  | cancelled
deriving Repr, DecidableEq

inductive ComponentStatus
  | operational
  | performance_issues
  | partial_outage
  | major_outage
  | under_maintenance
deriving Repr, DecidableEq

/-- Row of the `users` table. -/
structure User where
  id : Nat
  email : String
  password_hash : String
  first_name : String
  last_name : String
  role : UserRole
  is_active : Bool
  created_at : Time
  updated_at : Time
deriving Repr, DecidableEq

/-- Row of the `organizations` table. -/
structure Organization where
  id : Nat
  name : String
  slug : String
  plan_type : PlanType
  owner_id : Nat
  created_at : Time
  updated_at : Time
deriving Repr, DecidableEq

/-- Row of the `status_pages` table. -/
structure StatusPage where
  id : Nat
  organization_id : Nat
  name : String
  slug : String
  description : Option String
  custom_domain : Option String
  branding_logo_url : Option String
  branding_primary_color : Option String
  branding_secondary_color : Option String
  is_public : Bool
  created_at : Time
  updated_at : Time
deriving Repr, DecidableEq

/-- Row of the `components` table. -/
structure Component where
  id : Nat
  status_page_id : Nat
  name : String
  description : Option String
  status : ComponentStatus
  position : Int
  created_at : Time
  updated_at : Time
deriving Repr, DecidableEq

/-- Row of the `incidents` table. -/
structure Incident where
  id : Nat
  status_page_id : Nat
  title : String
  description : String
  status : IncidentStatus
  created_by : Nat
  created_at : Time
  updated_at : Time
  resolved_at : Option Time
deriving Repr, DecidableEq

/-- Row of the `incident_updates` table. -/
structure IncidentUpdate where
  id : Nat
  incident_id : Nat
  title : String
  description : String
  status : IncidentStatus
  created_by : Nat
  created_at : Time
deriving Repr, DecidableEq

/-- Row of the `maintenance_windows` table. -/
structure MaintenanceWindow where
  id : Nat
  status_page_id : Nat
  title : String
  description : String
  status : MaintenanceStatus
  scheduled_start : Time
  scheduled_end : Time
  actual_start : Option Time
  actual_end : Option Time
  created_by : Nat
  created_at : Time
  updated_at : Time
deriving Repr, DecidableEq

/-- Row of the `organization_members` table. -/
structure OrganizationMember where
  id : Nat
  organization_id : Nat
  user_id : Nat
  role : UserRole
  created_at : Time
deriving Repr, DecidableEq

/-- Row of the `incident_affected_components` junction table. -/
structure IncidentAffectedComponent where
  id : Nat
  incident_id : Nat
  component_id : Nat
  created_at : Time
deriving Repr, DecidableEq

/-- Row of the `maintenance_affected_components` junction table. -/
structure MaintenanceAffectedComponent where
  id : Nat
  maintenance_window_id : Nat
  component_id : Nat
  created_at : Time
deriving Repr, DecidableEq

/-- The relational storage state: one list of rows per table, plus the next
value of the serial id sequence. -/
structure DB where
  users : List User
  organizations : List Organization
  statusPages : List StatusPage
  components : List Component
  incidents : List Incident
  incidentUpdates : List IncidentUpdate
  maintenanceWindows : List MaintenanceWindow
  organizationMembers : List OrganizationMember
  incidentAffectedComponents : List IncidentAffectedComponent
  maintenanceAffectedComponents : List MaintenanceAffectedComponent
  nextId : Nat
deriving Repr, DecidableEq

def DB.findOrganization (db : DB) (id : Nat) : Option Organization :=
  db.organizations.find? (fun o => o.id == id)

def DB.findUser (db : DB) (id : Nat) : Option User :=
  db.users.find? (fun u => u.id == id)

def DB.findStatusPage (db : DB) (id : Nat) : Option StatusPage :=
  db.statusPages.find? (fun sp => sp.id == id)

def DB.findComponent (db : DB) (id : Nat) : Option Component :=
  db.components.find? (fun c => c.id == id)

def DB.findIncident (db : DB) (id : Nat) : Option Incident :=
  db.incidents.find? (fun i => i.id == id)

def DB.findMaintenanceWindow (db : DB) (id : Nat) : Option MaintenanceWindow :=
  db.maintenanceWindows.find? (fun w => w.id == id)

def DB.statusPageCount (db : DB) (orgId : Nat) : Nat :=
  (db.statusPages.filter (fun sp => sp.organization_id == orgId)).length

def DB.componentCount (db : DB) (pageId : Nat) : Nat :=
  (db.components.filter (fun c => c.status_page_id == pageId)).length

def DB.memberCount (db : DB) (orgId : Nat) : Nat :=
  (db.organizationMembers.filter (fun m => m.organization_id == orgId)).length

def DB.membershipCount (db : DB) (orgId userId : Nat) : Nat :=
  (db.organizationMembers.filter
    (fun m => m.organization_id == orgId && m.user_id == userId)).length

/-! ### Validated handler inputs (zod schemas of `schema.ts`) -/

structure CreateStatusPageInput where
  organization_id : Nat
  name : String
  slug : String
  description : Option String
  custom_domain : Option String
  branding_logo_url : Option String
  branding_primary_color : Option String
  branding_secondary_color : Option String
  is_public : Bool
deriving Repr, DecidableEq

structure CreateComponentInput where
  status_page_id : Nat
  name : String
  description : Option String
  status : ComponentStatus
  position : Int
deriving Repr, DecidableEq

structure CreateIncidentInput where
  status_page_id : Nat
  title : String
  description : String
  status : IncidentStatus
  created_by : Nat
  affected_component_ids : List Nat
deriving Repr, DecidableEq

structure CreateIncidentUpdateInput where
  incident_id : Nat
  title : String
  description : String
  status : IncidentStatus
  created_by : Nat
deriving Repr, DecidableEq

structure CreateMaintenanceWindowInput where
  status_page_id : Nat
  title : String
  description : String
  scheduled_start : Time
  scheduled_end : Time
  created_by : Nat
  affected_component_ids : List Nat
deriving Repr, DecidableEq

structure UpdateStatusPageInput where
  id : Nat
  name : Option String
  description : Option (Option String)
  custom_domain : Option (Option String)
  branding_logo_url : Option (Option String)
  branding_primary_color : Option (Option String)
  branding_secondary_color : Option (Option String)
  is_public : Option Bool
deriving Repr, DecidableEq

structure UpdateComponentInput where
  id : Nat
  name : Option String
  description : Option (Option String)
  status : Option ComponentStatus
  position : Option Int
deriving Repr, DecidableEq

structure UpdateIncidentInput where
  id : Nat
  title : Option String
  description : Option String
  status : Option IncidentStatus
deriving Repr, DecidableEq

structure UpdateMaintenanceWindowInput where
  id : Nat
  title : Option String
  description : Option String
  status : Option MaintenanceStatus
  scheduled_start : Option Time
  scheduled_end : Option Time
  actual_start : Option (Option Time)
  actual_end : Option (Option Time)
deriving Repr, DecidableEq

/-! ### Plan limit tables and error messages, one hardcoded map per handler
as in the source -/

def planTypeText : PlanType → String
  | .free => "free"
  | .pro => "pro"
  | .plus => "plus"
  | .enterprise => "enterprise"

/-- The `planLimits` map of `createStatusPage`. -/
def statusPagePlanLimit : PlanType → Nat
  | .free => 1
  | .pro => 3
  | .plus => 12
  | .enterprise => 100

/-- The `planLimits` map of `createComponent`; `none` stands for `Infinity`. -/
def componentPlanLimit : PlanType → Option Nat
  | .free => some 7
  | .pro => some 36
  | .plus => some 60
  | .enterprise => none

/-- The `planLimits` map of `addOrganizationMember`; `none` stands for
`Infinity`. -/
def memberPlanLimit : PlanType → Option Nat
  | .free => some 7
  | .pro => some 35
  | .plus => some 50
  | .enterprise => none

/-- Whether `currentCount >= limit` where the limit may be `Infinity`. -/
def limitReached (limit : Option Nat) (currentCount : Nat) : Bool :=
  match limit with
  | some l => currentCount ≥ l
  | none => false

def statusPageQuotaMsg (p : PlanType) (limit : Nat) : String :=
  "Plan limit exceeded. " ++ planTypeText p ++ " plan allows maximum "
    ++ toString limit ++ " status pages"

def limitValueText : Option Nat → String
  | some l => toString l
  | none => "unlimited"

def componentQuotaMsg (p : PlanType) (limit : Option Nat) : String :=
  "Component limit exceeded for " ++ planTypeText p ++ " plan (limit: "
    ++ limitValueText limit ++ ")"

def memberLimitText : Option Nat → String
  | some l => toString l
  | none => "Infinity"

def memberQuotaMsg (p : PlanType) (limit : Option Nat) : String :=
  "Organization has reached the member limit for " ++ planTypeText p
    ++ " plan (" ++ memberLimitText limit ++ " members)"

/-- Error surfaced by the store when an insert violates a foreign-key
constraint (the handlers do not pre-validate these references). -/
def fkViolationMsg (table : String) : String :=
  "insert or update on table " ++ table ++ " violates foreign key constraint"

def statusPageNotFoundMsg (id : Nat) : String :=
  "Status page with id " ++ toString id ++ " not found"

def userNotFoundMsg (id : Nat) : String :=
  "User with id " ++ toString id ++ " not found"

def maintenanceInvalidComponentsMsg (ids : List Nat) : String :=
  "Components with ids " ++ String.intercalate (", ") (ids.map toString)
    ++ " not found or do not belong to the status page"

/-! ### Create handlers -/

/-- Handler `createStatusPage` (quota-gated insert). -/
def createStatusPage (input : CreateStatusPageInput) (now : Time) (db : DB) :
    Except String StatusPage × DB :=
  match db.findOrganization input.organization_id with
  | none => (.error ("Organization not found"), db)
  | some org =>
    let currentCount := db.statusPageCount input.organization_id
    let limit := statusPagePlanLimit org.plan_type
    if currentCount ≥ limit then
      (.error (statusPageQuotaMsg org.plan_type limit), db)
    else
      let page : StatusPage :=
        { id := db.nextId
          organization_id := input.organization_id
          name := input.name
          slug := input.slug
          description := input.description
          custom_domain := input.custom_domain
          branding_logo_url := input.branding_logo_url
          branding_primary_color := input.branding_primary_color
          branding_secondary_color := input.branding_secondary_color
          is_public := input.is_public
          created_at := now
          updated_at := now }
      (.ok page,
        { db with statusPages := db.statusPages ++ [page], nextId := db.nextId + 1 })

/-- Handler `createComponent` (quota-gated insert; the plan type comes from
the inner join of the status page with its organization). -/
def createComponent (input : CreateComponentInput) (now : Time) (db : DB) :
    Except String Component × DB :=
  match db.findStatusPage input.status_page_id with
  | none => (.error ("Status page not found"), db)
  | some sp =>
    match db.findOrganization sp.organization_id with
    | none => (.error ("Status page not found"), db)
    | some org =>
      let currentComponentCount := db.componentCount input.status_page_id
      let limit := componentPlanLimit org.plan_type
      if limitReached limit currentComponentCount then
        (.error (componentQuotaMsg org.plan_type limit), db)
      else
        let comp : Component :=
          { id := db.nextId
            status_page_id := input.status_page_id
            name := input.name
            description := input.description
            status := input.status
            position := input.position
            created_at := now
            updated_at := now }
        (.ok comp,
          { db with components := db.components ++ [comp], nextId := db.nextId + 1 })

/-- Handler `addOrganizationMember` (duplicate check, then quota-gated
insert). -/
def addOrganizationMember (organizationId userId : Nat) (role : UserRole)
    (now : Time) (db : DB) : Except String OrganizationMember × DB :=
  match db.findOrganization organizationId with
  | none => (.error ("Organization not found"), db)
  | some org =>
    match db.findUser userId with
    | none => (.error ("User not found"), db)
    | some _ =>
      if db.membershipCount organizationId userId > 0 then
        (.error ("User is already a member of this organization"), db)
      else
        let currentMemberCount := db.memberCount organizationId
        let limit := memberPlanLimit org.plan_type
        if limitReached limit currentMemberCount then
          (.error (memberQuotaMsg org.plan_type limit), db)
        else
          let m : OrganizationMember :=
            { id := db.nextId
              organization_id := organizationId
              user_id := userId
              role := role
              created_at := now }
          (.ok m,
            { db with organizationMembers := db.organizationMembers ++ [m],
                      nextId := db.nextId + 1 })

/-- Handler `createIncident`.  The handler performs no pre-validation; the
foreign keys of the incident insert (`status_page_id`, `created_by`) and of
the junction batch insert (`component_id`) are enforced by the store per
statement.  The two inserts are NOT wrapped in a transaction: a failing
junction insert leaves the already-committed incident row behind. -/
def createIncident (input : CreateIncidentInput) (now : Time) (db : DB) :
    Except String Incident × DB :=
  if (db.findStatusPage input.status_page_id).isSome
      && (db.findUser input.created_by).isSome then
    let incident : Incident :=
      { id := db.nextId
        status_page_id := input.status_page_id
        title := input.title
        description := input.description
        status := input.status
        created_by := input.created_by
        created_at := now
        updated_at := now
        resolved_at := none }
    let db1 : DB :=
      { db with incidents := db.incidents ++ [incident], nextId := db.nextId + 1 }
    if input.affected_component_ids.length > 0 then
      if input.affected_component_ids.all
          (fun cid => (db.findComponent cid).isSome) then
        let rows : List IncidentAffectedComponent :=
          input.affected_component_ids.enum.map (fun pair =>
            { id := db1.nextId + pair.1
              incident_id := incident.id
              component_id := pair.2
              created_at := now })
        (.ok incident,
          { db1 with
              incidentAffectedComponents :=
                db1.incidentAffectedComponents ++ rows,
              nextId := db1.nextId + rows.length })
      else
        (.error (fkViolationMsg ("incident_affected_components")), db1)
    else
      (.ok incident, db1)
  else
    (.error (fkViolationMsg ("incidents")), db)

/-- Component ids belonging to the status page of a new maintenance window
(the `validComponentIds` select of `createMaintenanceWindow`). -/
def maintenanceValidComponentIds (db : DB) (pageId : Nat) : List Nat :=
  (db.components.filter (fun c => c.status_page_id == pageId)).map (fun c => c.id)

/-- The `invalidComponentIds` filter of `createMaintenanceWindow`. -/
def maintenanceInvalidComponentIds (db : DB) (input : CreateMaintenanceWindowInput) :
    List Nat :=
  input.affected_component_ids.filter
    (fun cid => !((maintenanceValidComponentIds db input.status_page_id).contains cid))

/-- Handler `createMaintenanceWindow`: existence checks, itemized
affected-component validation, then the window insert (status and actual
timestamps take the column defaults) and the junction batch insert. -/
def createMaintenanceWindow (input : CreateMaintenanceWindowInput) (now : Time)
    (db : DB) : Except String MaintenanceWindow × DB :=
  match db.findStatusPage input.status_page_id with
  | none => (.error (statusPageNotFoundMsg input.status_page_id), db)
  | some _ =>
    match db.findUser input.created_by with
    | none => (.error (userNotFoundMsg input.created_by), db)
    | some _ =>
      if input.affected_component_ids.length > 0
          && (maintenanceInvalidComponentIds db input).length > 0 then
        (.error (maintenanceInvalidComponentsMsg
          (maintenanceInvalidComponentIds db input)), db)
      else
        let w : MaintenanceWindow :=
          { id := db.nextId
            status_page_id := input.status_page_id
            title := input.title
            description := input.description
            status := .scheduled
            scheduled_start := input.scheduled_start
            scheduled_end := input.scheduled_end
            actual_start := none
            actual_end := none
            created_by := input.created_by
            created_at := now
            updated_at := now }
        let rows : List MaintenanceAffectedComponent :=
          input.affected_component_ids.enum.map (fun pair =>
            { id := db.nextId + 1 + pair.1
              maintenance_window_id := w.id
              component_id := pair.2
              created_at := now })
        (.ok w,
          { db with
              maintenanceWindows := db.maintenanceWindows ++ [w],
              maintenanceAffectedComponents :=
                db.maintenanceAffectedComponents ++ rows,
              nextId := db.nextId + 1 + rows.length })

/-- Handler `createIncidentUpdate`: inside one transaction, insert the
update row and propagate the status to the parent incident.  `resolved_at`
is written only when the new status is `resolved` (the conditional spread
of the source); otherwise the stored value is left as it was. -/
def createIncidentUpdate (input : CreateIncidentUpdateInput) (now : Time)
    (db : DB) : Except String IncidentUpdate × DB :=
  if (db.findIncident input.incident_id).isSome
      && (db.findUser input.created_by).isSome then
    let u : IncidentUpdate :=
      { id := db.nextId
        incident_id := input.incident_id
        title := input.title
        description := input.description
        status := input.status
        created_by := input.created_by
        created_at := now }
    let incidents1 := db.incidents.map (fun inc =>
      if inc.id == input.incident_id then
        { inc with
            status := input.status
            updated_at := now
            resolved_at :=
              if input.status = .resolved then some now else inc.resolved_at }
      else inc)
    (.ok u,
      { db with
          incidentUpdates := db.incidentUpdates ++ [u],
          incidents := incidents1,
          nextId := db.nextId + 1 })
  else
    (.error (fkViolationMsg ("incident_updates")), db)

/-! ### Update handlers -/

/-- The `updateValues` patch of `updateIncident` applied to one row:
provided fields are applied, `updated_at` is always refreshed, and a
provided status drives `resolved_at` (set on `resolved`, cleared
otherwise). -/
def applyIncidentPatch (input : UpdateIncidentInput) (now : Time)
    (inc : Incident) : Incident :=
  { inc with
      title := input.title.getD inc.title
      description := input.description.getD inc.description
      status := input.status.getD inc.status
      resolved_at :=
        match input.status with
        | some s => if s = .resolved then some now else none
        | none => inc.resolved_at
      updated_at := now }

/-- Handler `updateIncident`. -/
def updateIncident (input : UpdateIncidentInput) (now : Time) (db : DB) :
    Except String Incident × DB :=
  match db.findIncident input.id with
  | none => (.error ("Incident with id " ++ toString input.id ++ " not found"), db)
  | some inc =>
    (.ok (applyIncidentPatch input now inc),
      { db with incidents := db.incidents.map (fun x =>
          if x.id == input.id then applyIncidentPatch input now x else x) })

/-- The `updateData` patch of `updateComponent` applied to one row. -/
def applyComponentPatch (input : UpdateComponentInput) (now : Time)
    (c : Component) : Component :=
  { c with
      name := input.name.getD c.name
      description := input.description.getD c.description
      status := input.status.getD c.status
      position := input.position.getD c.position
      updated_at := now }

/-- Handler `updateComponent`. -/
def updateComponent (input : UpdateComponentInput) (now : Time) (db : DB) :
    Except String Component × DB :=
  match db.findComponent input.id with
  | none => (.error ("Component with id " ++ toString input.id ++ " not found"), db)
  | some c =>
    (.ok (applyComponentPatch input now c),
      { db with components := db.components.map (fun x =>
          if x.id == input.id then applyComponentPatch input now x else x) })

/-- The `updateData` patch of `updateStatusPage` applied to one row. -/
def applyStatusPagePatch (input : UpdateStatusPageInput) (now : Time)
    (sp : StatusPage) : StatusPage :=
  { sp with
      name := input.name.getD sp.name
      description := input.description.getD sp.description
      custom_domain := input.custom_domain.getD sp.custom_domain
      branding_logo_url := input.branding_logo_url.getD sp.branding_logo_url
      branding_primary_color :=
        input.branding_primary_color.getD sp.branding_primary_color
      branding_secondary_color :=
        input.branding_secondary_color.getD sp.branding_secondary_color
      is_public := input.is_public.getD sp.is_public
      updated_at := now }

/-- Handler `updateStatusPage`. -/
def updateStatusPage (input : UpdateStatusPageInput) (now : Time) (db : DB) :
    Except String StatusPage × DB :=
  match db.findStatusPage input.id with
  | none =>
    (.error ("Status page with ID " ++ toString input.id ++ " not found"), db)
  | some sp =>
    (.ok (applyStatusPagePatch input now sp),
      { db with statusPages := db.statusPages.map (fun x =>
          if x.id == input.id then applyStatusPagePatch input now x else x) })

/-- The `updateData` record of `updateMaintenanceWindow` before the row is
written: an optional value per column (`none` = column untouched), with
`actual_start` / `actual_end` optionally set to an optional timestamp. -/
structure MaintenanceWindowUpdateData where
  title : Option String
  description : Option String
  scheduled_start : Option Time
  scheduled_end : Option Time
  actual_start : Option (Option Time)
  actual_end : Option (Option Time)
  status : Option MaintenanceStatus
  updated_at : Time
deriving Repr, DecidableEq

/-- Builds `updateData` of `updateMaintenanceWindow`: copy the provided
fields, then let a provided status derive the actual timestamps — set
`actual_start` on `in_progress` and `actual_end` on `completed`/`cancelled`
only when the caller did not supply them, and unconditionally clear both on
`scheduled`. -/
def buildMaintenanceWindowUpdateData (input : UpdateMaintenanceWindowInput)
    (now : Time) : MaintenanceWindowUpdateData :=
  let d : MaintenanceWindowUpdateData :=
    { title := input.title
      description := input.description
      scheduled_start := input.scheduled_start
      scheduled_end := input.scheduled_end
      actual_start := input.actual_start
      actual_end := input.actual_end
      status := none
      updated_at := now }
  match input.status with
  | none => d
  | some s =>
    let d := { d with status := some s }
    let d :=
      if s = .in_progress ∧ d.actual_start = none then
        { d with actual_start := some (some now) }
      else d
    let d :=
      if (s = .completed ∨ s = .cancelled) ∧ d.actual_end = none then
        { d with actual_end := some (some now) }
      else d
    if s = .scheduled then
      { d with actual_start := some none, actual_end := some none }
    else d

/-- Applies `updateData` to a maintenance-window row. -/
def applyMaintenanceWindowPatch (d : MaintenanceWindowUpdateData)
    (w : MaintenanceWindow) : MaintenanceWindow :=
  { w with
      title := d.title.getD w.title
      description := d.description.getD w.description
      status := d.status.getD w.status
      scheduled_start := d.scheduled_start.getD w.scheduled_start
      scheduled_end := d.scheduled_end.getD w.scheduled_end
      actual_start := d.actual_start.getD w.actual_start
      actual_end := d.actual_end.getD w.actual_end
      updated_at := d.updated_at }

/-- Handler `updateMaintenanceWindow`. -/
def updateMaintenanceWindow (input : UpdateMaintenanceWindowInput) (now : Time)
    (db : DB) : Except String MaintenanceWindow × DB :=
  let d := buildMaintenanceWindowUpdateData input now
  match db.findMaintenanceWindow input.id with
  | none =>
    (.error ("Maintenance window with id " ++ toString input.id ++ " not found"), db)
  | some w =>
    (.ok (applyMaintenanceWindowPatch d w),
      { db with maintenanceWindows := db.maintenanceWindows.map (fun x =>
          if x.id == input.id then applyMaintenanceWindowPatch d x else x) })

/-! ### Cascade deletion -/

/-- Handler `deleteStatusPage`: `false` when the page is absent; otherwise
delete the dependents in order — incident updates and incident junction
rows per incident under the page, maintenance junction rows per window
under the page, then incidents, windows, components, and the page row. -/
def deleteStatusPage (id : Nat) (db : DB) : Bool × DB :=
  match db.findStatusPage id with
  | none => (false, db)
  | some _ =>
    let incidents := db.incidents.filter (fun i => i.status_page_id == id)
    let incidentUpdates1 := incidents.foldl
      (fun ups inc => ups.filter (fun u => u.incident_id != inc.id))
      db.incidentUpdates
    let iac1 := incidents.foldl
      (fun rows inc => rows.filter (fun r => r.incident_id != inc.id))
      db.incidentAffectedComponents
    let maintenanceWindows :=
      db.maintenanceWindows.filter (fun w => w.status_page_id == id)
    let mac1 := maintenanceWindows.foldl
      (fun rows w => rows.filter (fun r => r.maintenance_window_id != w.id))
      db.maintenanceAffectedComponents
    (true,
      { db with
          incidentUpdates := incidentUpdates1,
          incidentAffectedComponents := iac1,
          maintenanceAffectedComponents := mac1,
          incidents := db.incidents.filter (fun i => i.status_page_id != id),
          maintenanceWindows :=
            db.maintenanceWindows.filter (fun w => w.status_page_id != id),
          components := db.components.filter (fun c => c.status_page_id != id),
          statusPages := db.statusPages.filter (fun sp => sp.id != id) })

/-! ### Concrete sample data used by witnesses and counterexamples -/

def sampleUser : User :=
  { id := 1, email := "owner at example.com", password_hash := "h"
    first_name := "A", last_name := "B", role := .owner, is_active := true
    created_at := 0, updated_at := 0 }

def sampleFreeOrg : Organization :=
  { id := 1, name := "Acme", slug := "acme", plan_type := .free
    owner_id := 1, created_at := 0, updated_at := 0 }

def samplePage : StatusPage :=
  { id := 1, organization_id := 1, name := "Main", slug := "main"
    description := none, custom_domain := none, branding_logo_url := none
    branding_primary_color := none, branding_secondary_color := none
    is_public := true, created_at := 0, updated_at := 0 }

def emptyDB : DB :=
  { users := [], organizations := [], statusPages := [], components := []
    incidents := [], incidentUpdates := [], maintenanceWindows := []
    organizationMembers := [], incidentAffectedComponents := []
    maintenanceAffectedComponents := [], nextId := 2 }

def baseDB : DB :=
  { emptyDB with
      users := [sampleUser]
      organizations := [sampleFreeOrg]
      statusPages := [samplePage]
      nextId := 10 }

/-- An incident sitting in the resolved state with its resolution stamp. -/
def resolvedIncident : Incident :=
  { id := 10, status_page_id := 1, title := "outage", description := "down"
    status := .resolved, created_by := 1, created_at := 0, updated_at := 1
    resolved_at := some 5 }

def resolvedIncidentDB : DB :=
  { baseDB with incidents := [resolvedIncident], nextId := 11 }

def monitoringUpdateInput : CreateIncidentUpdateInput :=
  { incident_id := 10, title := "watching", description := "monitoring fix"
    status := .monitoring, created_by := 1 }

/-- Claim C1: evaluating `createIncidentUpdate` at an incident that is
currently resolved (with `resolved_at = some 5`) and posting a
`monitoring` update: the call succeeds, the parent incident leaves the
`resolved` status, yet its `resolved_at` stays `some 5` instead of being
cleared — the handler only writes `resolved_at` when the new status is
`resolved` and never clears it, violating the stated invariant. -/
theorem createIncidentUpdate_keeps_stale_resolved_at :
    (createIncidentUpdate monitoringUpdateInput 20 resolvedIncidentDB).1 =
      .ok { id := 11, incident_id := 10, title := "watching"
            description := "monitoring fix", status := .monitoring
            created_by := 1, created_at := 20 } ∧
    (createIncidentUpdate monitoringUpdateInput 20 resolvedIncidentDB).2.incidents.map
      (fun i => (i.status, i.resolved_at)) =
      [(IncidentStatus.monitoring, some 5)] := by
  exact ⟨rfl, rfl⟩

/-- Claim C10: every maintenance window that `createMaintenanceWindow`
returns is persisted with status `scheduled` and with `actual_start` and
`actual_end` null — the create input carries no status field, so no other
initial state is reachable. -/
theorem createMaintenanceWindow_initial_state :
    ∀ (db : DB) (input : CreateMaintenanceWindowInput) (now : Time)
      (w : MaintenanceWindow) (db2 : DB),
      createMaintenanceWindow input now db = (.ok w, db2) →
      w.status = .scheduled ∧ w.actual_start = none ∧ w.actual_end = none ∧
        w ∈ db2.maintenanceWindows := by
  intro db input now w db2 h
  simp only [createMaintenanceWindow] at h
  split at h
  · simp at h
  · split at h
    · simp at h
    · split at h
      · simp at h
      · rw [Prod.mk.injEq] at h
        obtain ⟨h1, h2⟩ := h
        rw [Except.ok.injEq] at h1
        subst h1
        subst h2
        refine ⟨rfl, rfl, rfl, ?_⟩
        simp

def scheduledWindow : MaintenanceWindow :=
  { id := 20, status_page_id := 1, title := "db upgrade", description := "m"
    status := .in_progress, scheduled_start := 100, scheduled_end := 200
    actual_start := some 90, actual_end := none, created_by := 1
    created_at := 0, updated_at := 0 }

def windowDB : DB :=
  { baseDB with maintenanceWindows := [scheduledWindow], nextId := 21 }

def createWindowInput : CreateMaintenanceWindowInput :=
  { status_page_id := 1, title := "net maintenance", description := "swap"
    scheduled_start := 300, scheduled_end := 400, created_by := 1
    affected_component_ids := [] }

/-- Witness for claim C10 at a concrete create call. -/
theorem createMaintenanceWindow_initial_state_witness :
    (createMaintenanceWindow createWindowInput 50 windowDB).2.maintenanceWindows.length = 2 ∧
    ((createMaintenanceWindow createWindowInput 50 windowDB).2.maintenanceWindows.map
      (fun w => (w.status, w.actual_start, w.actual_end))).getLast? =
      some (MaintenanceStatus.scheduled, none, none) ∧
    (match createMaintenanceWindow createWindowInput 50 windowDB with
      | (.ok w, db2) =>
          w.status = .scheduled ∧ w.actual_start = none ∧ w.actual_end = none ∧
            w ∈ db2.maintenanceWindows
      | (.error _, _) => False) := by
  refine ⟨rfl, rfl, ?_⟩
  exact createMaintenanceWindow_initial_state windowDB createWindowInput 50 _ _ rfl

/-- Claim C4: status transitions of `updateMaintenanceWindow` — entering
`in_progress` stamps `actual_start = now` unless the caller supplied an
`actual_start` in the same patch; entering `completed` or `cancelled` does
the same for `actual_end`; entering `scheduled` clears both actual
timestamps even when the patch supplies explicit values for them. -/
theorem updateMaintenanceWindow_status_effects :
    ∀ (db : DB) (input : UpdateMaintenanceWindowInput) (now : Time)
      (s : MaintenanceStatus) (w : MaintenanceWindow),
      input.status = some s →
      db.findMaintenanceWindow input.id = some w →
      ∃ w2, (updateMaintenanceWindow input now db).1 = .ok w2 ∧
        (s = .in_progress →
          (input.actual_start = none → w2.actual_start = some now) ∧
          (∀ v, input.actual_start = some v → w2.actual_start = v)) ∧
        ((s = .completed ∨ s = .cancelled) →
          (input.actual_end = none → w2.actual_end = some now) ∧
          (∀ v, input.actual_end = some v → w2.actual_end = v)) ∧
        (s = .scheduled → w2.actual_start = none ∧ w2.actual_end = none) := by
  intro db input now s w hs hfind
  refine ⟨applyMaintenanceWindowPatch (buildMaintenanceWindowUpdateData input now) w,
    ?_, ?_, ?_, ?_⟩
  · simp only [updateMaintenanceWindow, hfind]
  · rintro rfl
    constructor
    · intro hstart
      simp [buildMaintenanceWindowUpdateData, hs, hstart, applyMaintenanceWindowPatch]
    · intro v hstart
      simp [buildMaintenanceWindowUpdateData, hs, hstart, applyMaintenanceWindowPatch]
  · rintro (rfl | rfl) <;>
      refine ⟨fun hend => ?_, fun v hend => ?_⟩ <;>
      simp [buildMaintenanceWindowUpdateData, hs, hend, applyMaintenanceWindowPatch]
  · rintro rfl
    constructor <;>
      simp [buildMaintenanceWindowUpdateData, hs, applyMaintenanceWindowPatch]

def backToScheduledInput : UpdateMaintenanceWindowInput :=
  { id := 20, title := none, description := none, status := some .scheduled
    scheduled_start := none, scheduled_end := none
    actual_start := some (some 123), actual_end := some (some 456) }

/-- Witness for claim C4: resetting a window to `scheduled` while the patch
explicitly supplies actual timestamps still clears both of them. -/
theorem updateMaintenanceWindow_status_effects_witness :
    ∃ w2, (updateMaintenanceWindow backToScheduledInput 60 windowDB).1 = .ok w2 ∧
      (MaintenanceStatus.scheduled = .in_progress →
        (backToScheduledInput.actual_start = none → w2.actual_start = some 60) ∧
        (∀ v, backToScheduledInput.actual_start = some v → w2.actual_start = v)) ∧
      ((MaintenanceStatus.scheduled = .completed ∨
          MaintenanceStatus.scheduled = .cancelled) →
        (backToScheduledInput.actual_end = none → w2.actual_end = some 60) ∧
        (∀ v, backToScheduledInput.actual_end = some v → w2.actual_end = v)) ∧
      (MaintenanceStatus.scheduled = .scheduled →
        w2.actual_start = none ∧ w2.actual_end = none) := by
  exact updateMaintenanceWindow_status_effects windowDB backToScheduledInput 60
    .scheduled scheduledWindow rfl rfl

/-- Updating the rows matching an id and then selecting by that id returns
the updated first match, for any row updater that preserves ids. -/
theorem find?_map_ite {α : Type} (key : α → Nat) (k : Nat) (f : α → α)
    (hf : ∀ x, key (f x) = key x) :
    ∀ (l : List α),
      (l.map (fun x => if key x == k then f x else x)).find? (fun x => key x == k)
        = (l.find? (fun x => key x == k)).map f := by
  intro l
  induction l with
  | nil => rfl
  | cons a l ih =>
    simp only [List.map_cons]
    cases h : (key a == k) with
    | true =>
      have hfa : (key (f a) == k) = true := by rw [hf]; exact h
      rw [if_pos rfl,
        @List.find?_cons_of_pos α (fun x => key x == k) (f a) _ hfa,
        @List.find?_cons_of_pos α (fun x => key x == k) a _ h]
      rfl
    | false =>
      rw [if_neg (by simp [h]),
        @List.find?_cons_of_neg α (fun x => key x == k) a _ (by simp [h]),
        @List.find?_cons_of_neg α (fun x => key x == k) a _ (by simp [h])]
      exact ih

/-- Claim C5: a successful `createIncidentUpdate` with status S appends the
update row and leaves the parent incident with status S and a strictly
larger `updated_at`; and when the call fails, the state is unchanged (the
two writes are one transaction). -/
theorem createIncidentUpdate_propagates_status :
    (∀ (db : DB) (input : CreateIncidentUpdateInput) (now : Time) (inc : Incident),
      db.findIncident input.incident_id = some inc →
      (db.findUser input.created_by).isSome = true →
      inc.updated_at < now →
      ∃ u, (createIncidentUpdate input now db).1 = .ok u ∧
        (createIncidentUpdate input now db).2.incidentUpdates =
          db.incidentUpdates ++ [u] ∧
        u.status = input.status ∧
        ∃ inc2,
          (createIncidentUpdate input now db).2.findIncident input.incident_id =
            some inc2 ∧
          inc2.status = input.status ∧ inc.updated_at < inc2.updated_at) ∧
    (∀ (db : DB) (input : CreateIncidentUpdateInput) (now : Time)
      (e : String) (db2 : DB),
      createIncidentUpdate input now db = (.error e, db2) → db2 = db) := by
  constructor
  · intro db input now inc hfind huser hlt
    simp only [createIncidentUpdate, hfind, huser, Option.isSome_some,
      Bool.and_self, if_true]
    refine ⟨_, rfl, rfl, rfl, ?_⟩
    refine ⟨{ inc with
        status := input.status
        updated_at := now
        resolved_at :=
          if input.status = .resolved then some now else inc.resolved_at },
      ?_, rfl, hlt⟩
    show (DB.findIncident _ input.incident_id) = _
    simp only [DB.findIncident]
    rw [find?_map_ite (fun i : Incident => i.id) input.incident_id
      (fun inc => { inc with
        status := input.status
        updated_at := now
        resolved_at :=
          if input.status = .resolved then some now else inc.resolved_at })
      (fun x => rfl) db.incidents]
    rw [show db.incidents.find? (fun i => i.id == input.incident_id) = some inc
      from hfind]
    rfl
  · intro db input now e db2 h
    simp only [createIncidentUpdate] at h
    split at h
    · simp at h
    · rw [Prod.mk.injEq] at h
      exact h.2.symm

/-- Witness for claim C5: a concrete successful propagation and a concrete
failing call that leaves the state unchanged. -/
theorem createIncidentUpdate_propagates_status_witness :
    (∃ u, (createIncidentUpdate monitoringUpdateInput 20 resolvedIncidentDB).1 =
        .ok u ∧
      (createIncidentUpdate monitoringUpdateInput 20 resolvedIncidentDB).2.incidentUpdates =
        resolvedIncidentDB.incidentUpdates ++ [u] ∧
      u.status = monitoringUpdateInput.status ∧
      ∃ inc2,
        (createIncidentUpdate monitoringUpdateInput 20 resolvedIncidentDB).2.findIncident
          monitoringUpdateInput.incident_id = some inc2 ∧
        inc2.status = monitoringUpdateInput.status ∧
        resolvedIncident.updated_at < inc2.updated_at) ∧
    (createIncidentUpdate monitoringUpdateInput 20 emptyDB).2 = emptyDB := by
  constructor
  · exact createIncidentUpdate_propagates_status.1 resolvedIncidentDB
      monitoringUpdateInput 20 resolvedIncident rfl rfl (by decide)
  · exact createIncidentUpdate_propagates_status.2 emptyDB
      monitoringUpdateInput 20 _ _ rfl

/-- Claim C2: the per-handler limit tables are free=1/7/7, pro=3/36/35,
plus=12/60/50 for status pages / components / members, and for each
quota-bound create the call at current count = limit fails with the quota
error naming the plan tier and the limit, while a call below the limit
(in particular the one producing the limit-th row) succeeds. -/
theorem quota_limits_boundary :
    (statusPagePlanLimit .free = 1 ∧ statusPagePlanLimit .pro = 3 ∧
      statusPagePlanLimit .plus = 12 ∧
      componentPlanLimit .free = some 7 ∧ componentPlanLimit .pro = some 36 ∧
      componentPlanLimit .plus = some 60 ∧
      memberPlanLimit .free = some 7 ∧ memberPlanLimit .pro = some 35 ∧
      memberPlanLimit .plus = some 50) ∧
    (∀ (db : DB) (input : CreateStatusPageInput) (now : Time) (org : Organization),
      db.findOrganization input.organization_id = some org →
      ((db.statusPageCount input.organization_id = statusPagePlanLimit org.plan_type →
        (createStatusPage input now db).1 =
          .error (statusPageQuotaMsg org.plan_type
            (statusPagePlanLimit org.plan_type))) ∧
       (db.statusPageCount input.organization_id < statusPagePlanLimit org.plan_type →
        ∃ sp, (createStatusPage input now db).1 = .ok sp))) ∧
    (∀ (db : DB) (input : CreateComponentInput) (now : Time)
      (sp : StatusPage) (org : Organization) (l : Nat),
      db.findStatusPage input.status_page_id = some sp →
      db.findOrganization sp.organization_id = some org →
      componentPlanLimit org.plan_type = some l →
      ((db.componentCount input.status_page_id = l →
        (createComponent input now db).1 =
          .error (componentQuotaMsg org.plan_type (some l))) ∧
       (db.componentCount input.status_page_id < l →
        ∃ c, (createComponent input now db).1 = .ok c))) ∧
    (∀ (db : DB) (orgId userId : Nat) (role : UserRole) (now : Time)
      (org : Organization) (l : Nat),
      db.findOrganization orgId = some org →
      (db.findUser userId).isSome = true →
      db.membershipCount orgId userId = 0 →
      memberPlanLimit org.plan_type = some l →
      ((db.memberCount orgId = l →
        (addOrganizationMember orgId userId role now db).1 =
          .error (memberQuotaMsg org.plan_type (some l))) ∧
       (db.memberCount orgId < l →
        ∃ m, (addOrganizationMember orgId userId role now db).1 = .ok m))) := by
  refine ⟨⟨rfl, rfl, rfl, rfl, rfl, rfl, rfl, rfl, rfl⟩, ?_, ?_, ?_⟩
  · intro db input now org horg
    constructor
    · intro hcount
      simp only [createStatusPage, horg]
      rw [if_pos hcount.ge]
    · intro hcount
      simp only [createStatusPage, horg]
      rw [if_neg (by omega)]
      exact ⟨_, rfl⟩
  · intro db input now sp org l hsp horg hl
    constructor
    · intro hcount
      have hr : limitReached (componentPlanLimit org.plan_type)
          (db.componentCount input.status_page_id) = true := by
        simp [limitReached, hl, hcount]
      simp only [createComponent, hsp, horg]
      rw [if_pos hr, hl]
    · intro hcount
      have hr : limitReached (componentPlanLimit org.plan_type)
          (db.componentCount input.status_page_id) = false := by
        simp only [limitReached, hl]
        simp only [decide_eq_false_iff_not]
        omega
      simp only [createComponent, hsp, horg]
      rw [if_neg (by simp [hr])]
      exact ⟨_, rfl⟩
  · intro db orgId userId role now org l horg huser hdup hl
    have huser2 : ∃ u, db.findUser userId = some u := by
      cases h : db.findUser userId with
      | none => rw [h] at huser; simp at huser
      | some u => exact ⟨u, rfl⟩
    obtain ⟨u, hu⟩ := huser2
    constructor
    · intro hcount
      have hr : limitReached (memberPlanLimit org.plan_type)
          (db.memberCount orgId) = true := by
        simp [limitReached, hl, hcount]
      simp only [addOrganizationMember, horg, hu]
      rw [if_neg (by omega), if_pos hr, hl]
    · intro hcount
      have hr : limitReached (memberPlanLimit org.plan_type)
          (db.memberCount orgId) = false := by
        simp only [limitReached, hl]
        simp only [decide_eq_false_iff_not]
        omega
      simp only [addOrganizationMember, horg, hu]
      rw [if_neg (by omega), if_neg (by simp [hr])]
      exact ⟨_, rfl⟩

def pageInputW : CreateStatusPageInput :=
  { organization_id := 1, name := "Second", slug := "second"
    description := none, custom_domain := none, branding_logo_url := none
    branding_primary_color := none, branding_secondary_color := none
    is_public := true }

def componentInputW : CreateComponentInput :=
  { status_page_id := 1, name := "API", description := none
    status := .operational, position := 0 }

/-- Witness for claim C2: on the free plan with one existing status page
the second create fails with the quota message, while a component create
and a member add below their limits succeed. -/
theorem quota_limits_boundary_witness :
    (createStatusPage pageInputW 30 baseDB).1 =
      .error (statusPageQuotaMsg PlanType.free (statusPagePlanLimit PlanType.free)) ∧
    (∃ c, (createComponent componentInputW 30 baseDB).1 = .ok c) ∧
    (∃ m, (addOrganizationMember 1 1 UserRole.member 30 baseDB).1 = .ok m) := by
  refine ⟨?_, ?_, ?_⟩
  · exact (quota_limits_boundary.2.1 baseDB pageInputW 30 sampleFreeOrg rfl).1 rfl
  · exact (quota_limits_boundary.2.2.1 baseDB componentInputW 30 samplePage
      sampleFreeOrg 7 rfl rfl rfl).2 (by decide)
  · exact (quota_limits_boundary.2.2.2 baseDB 1 1 .member 30 sampleFreeOrg 7
      rfl rfl rfl rfl).2 (by decide)

def enterpriseOrg : Organization :=
  { id := 2, name := "Big", slug := "big", plan_type := .enterprise
    owner_id := 1, created_at := 0, updated_at := 0 }

def manyPages : List StatusPage :=
  (List.range 100).map (fun i => { samplePage with id := i + 100, organization_id := 2 })

def enterpriseDB : DB :=
  { emptyDB with
      users := [sampleUser]
      organizations := [enterpriseOrg]
      statusPages := manyPages
      nextId := 400 }

def pageInputE : CreateStatusPageInput := { pageInputW with organization_id := 2 }

/-- Claim C3 counterexample: an enterprise organization that already has
100 status pages — `createStatusPage` fails with the quota error, so the
enterprise plan is NOT quota-exempt for status pages (its hardcoded page
limit is 100). -/
theorem enterprise_createStatusPage_quota_rejection :
    (createStatusPage pageInputE 50 enterpriseDB).1 =
      .error (statusPageQuotaMsg PlanType.enterprise 100) := by
  rfl

/-- Claim C3 (amended): for enterprise organizations, `createComponent`
and `addOrganizationMember` never fail on quota regardless of existing
counts (their limit is unlimited, so once the referenced rows exist the
call succeeds), but `createStatusPage` enforces a hardcoded limit of 100
pages and fails with the quota error once 100 pages exist. -/
theorem enterprise_quota_behavior :
    (∀ (db : DB) (input : CreateStatusPageInput) (now : Time) (org : Organization),
      db.findOrganization input.organization_id = some org →
      org.plan_type = .enterprise →
      db.statusPageCount input.organization_id ≥ 100 →
      (createStatusPage input now db).1 =
        .error (statusPageQuotaMsg PlanType.enterprise 100)) ∧
    (∀ (db : DB) (input : CreateComponentInput) (now : Time)
      (sp : StatusPage) (org : Organization),
      db.findStatusPage input.status_page_id = some sp →
      db.findOrganization sp.organization_id = some org →
      org.plan_type = .enterprise →
      ∃ c, (createComponent input now db).1 = .ok c) ∧
    (∀ (db : DB) (orgId userId : Nat) (role : UserRole) (now : Time)
      (org : Organization),
      db.findOrganization orgId = some org →
      org.plan_type = .enterprise →
      (db.findUser userId).isSome = true →
      db.membershipCount orgId userId = 0 →
      ∃ m, (addOrganizationMember orgId userId role now db).1 = .ok m) := by
  refine ⟨?_, ?_, ?_⟩
  · intro db input now org horg hplan hcount
    simp only [createStatusPage, horg, hplan, statusPagePlanLimit]
    rw [if_pos hcount]
  · intro db input now sp org hsp horg hplan
    simp only [createComponent, hsp, horg, hplan, componentPlanLimit]
    rw [if_neg (by simp [limitReached])]
    exact ⟨_, rfl⟩
  · intro db orgId userId role now org horg hplan huser hdup
    have huser2 : ∃ u, db.findUser userId = some u := by
      cases h : db.findUser userId with
      | none => rw [h] at huser; simp at huser
      | some u => exact ⟨u, rfl⟩
    obtain ⟨u, hu⟩ := huser2
    simp only [addOrganizationMember, horg, hu, hplan, memberPlanLimit]
    rw [if_neg (by omega), if_neg (by simp [limitReached])]
    exact ⟨_, rfl⟩

def componentInputE : CreateComponentInput :=
  { componentInputW with status_page_id := 100 }

/-- Witness for the amended claim C3 at the concrete enterprise state with
100 status pages. -/
theorem enterprise_quota_behavior_witness :
    (createStatusPage pageInputE 51 enterpriseDB).1 =
      .error (statusPageQuotaMsg PlanType.enterprise 100) ∧
    (∃ c, (createComponent componentInputE 51 enterpriseDB).1 = .ok c) ∧
    (∃ m, (addOrganizationMember 2 1 UserRole.member 51 enterpriseDB).1 = .ok m) := by
  refine ⟨?_, ?_, ?_⟩
  · exact enterprise_quota_behavior.1 enterpriseDB pageInputE 51 enterpriseOrg
      rfl rfl (by decide)
  · exact enterprise_quota_behavior.2.1 enterpriseDB componentInputE 51
      { samplePage with id := 100, organization_id := 2 } enterpriseOrg rfl rfl rfl
  · exact enterprise_quota_behavior.2.2 enterpriseDB 2 1 .member 51 enterpriseOrg
      rfl rfl rfl rfl

/-- Claim C8: `createMaintenanceWindow` with a non-empty affected list
containing an id that does not exist or belongs to another status page
fails with the error listing every offending id (the full
`invalidComponentIds` filter) and leaves the state completely unchanged —
no window row and no junction row is written. -/
theorem createMaintenanceWindow_invalid_components_rejected :
    ∀ (db : DB) (input : CreateMaintenanceWindowInput) (now : Time)
      (sp : StatusPage) (u : User),
      db.findStatusPage input.status_page_id = some sp →
      db.findUser input.created_by = some u →
      (∃ cid ∈ input.affected_component_ids,
        (maintenanceValidComponentIds db input.status_page_id).contains cid = false) →
      createMaintenanceWindow input now db =
        (.error (maintenanceInvalidComponentsMsg
          (maintenanceInvalidComponentIds db input)), db) := by
  intro db input now sp u hsp hu hbad
  obtain ⟨cid, hmem, hc⟩ := hbad
  have hc2 : cid ∉ maintenanceValidComponentIds db input.status_page_id := by
    simpa using hc
  have h1 : cid ∈ maintenanceInvalidComponentIds db input := by
    refine List.mem_filter.2 ⟨hmem, ?_⟩
    simp [hc2]
  have h2 : 0 < (maintenanceInvalidComponentIds db input).length :=
    List.length_pos_of_mem h1
  have h0 : 0 < input.affected_component_ids.length :=
    List.length_pos_of_mem hmem
  simp only [createMaintenanceWindow, hsp, hu]
  rw [if_pos (by simp only [Bool.and_eq_true, decide_eq_true_eq]; exact ⟨h0, h2⟩)]

def mwBadInput : CreateMaintenanceWindowInput :=
  { status_page_id := 1, title := "bad", description := "x"
    scheduled_start := 10, scheduled_end := 20, created_by := 1
    affected_component_ids := [7] }

/-- Witness for claim C8: listing a non-existent component id 7 makes the
create fail with the itemized message and leaves the state unchanged. -/
theorem createMaintenanceWindow_invalid_components_rejected_witness :
    createMaintenanceWindow mwBadInput 70 baseDB =
      (.error (maintenanceInvalidComponentsMsg
        (maintenanceInvalidComponentIds baseDB mwBadInput)), baseDB) := by
  exact createMaintenanceWindow_invalid_components_rejected baseDB mwBadInput 70
    samplePage sampleUser rfl rfl ⟨7, by decide, by decide⟩

def incidentBadInput : CreateIncidentInput :=
  { status_page_id := 1, title := "db down", description := "d"
    status := .investigating, created_by := 1
    affected_component_ids := [99] }

/-- Claim C7 counterexample: `createIncident` referencing the non-existent
component id 99 throws the foreign-key error, yet the incident row is
already committed (the two inserts are not in one transaction) — visible
state remains after the error, contradicting the claim. -/
theorem createIncident_error_leaves_incident_row :
    (createIncident incidentBadInput 40 baseDB).1 =
      .error (fkViolationMsg ("incident_affected_components")) ∧
    (createIncident incidentBadInput 40 baseDB).2.incidents.length = 1 ∧
    baseDB.incidents.length = 0 := by
  exact ⟨rfl, rfl, rfl⟩

/-- Claim C7 (amended): when `createIncident` fails on the junction batch
insert (some affected component id absent), the already-inserted incident
row remains committed and no junction row remains; only when the incident
insert itself fails (status page or creator missing) is the state fully
unchanged. -/
theorem createIncident_partial_commit :
    (∀ (db : DB) (input : CreateIncidentInput) (now : Time),
      (db.findStatusPage input.status_page_id).isSome = true →
      (db.findUser input.created_by).isSome = true →
      0 < input.affected_component_ids.length →
      input.affected_component_ids.all
        (fun cid => (db.findComponent cid).isSome) = false →
      (createIncident input now db).1 =
        .error (fkViolationMsg ("incident_affected_components")) ∧
      (createIncident input now db).2.incidents = db.incidents ++
        [{ id := db.nextId
           status_page_id := input.status_page_id
           title := input.title
           description := input.description
           status := input.status
           created_by := input.created_by
           created_at := now
           updated_at := now
           resolved_at := none }] ∧
      (createIncident input now db).2.incidentAffectedComponents =
        db.incidentAffectedComponents) ∧
    (∀ (db : DB) (input : CreateIncidentInput) (now : Time),
      ((db.findStatusPage input.status_page_id).isSome &&
        (db.findUser input.created_by).isSome) = false →
      createIncident input now db = (.error (fkViolationMsg ("incidents")), db)) := by
  constructor
  · intro db input now hp hu hlen hall
    simp only [createIncident]
    rw [if_pos (by simp only [Bool.and_eq_true]; exact ⟨hp, hu⟩),
      if_pos hlen, if_neg (by simp [hall])]
    exact ⟨rfl, rfl, rfl⟩
  · intro db input now hcond
    simp only [createIncident]
    rw [if_neg (by simp [hcond])]

/-- Witness for the amended claim C7: the concrete partial commit and the
concrete fully-rolled-back case. -/
theorem createIncident_partial_commit_witness :
    ((createIncident incidentBadInput 41 baseDB).1 =
      .error (fkViolationMsg ("incident_affected_components")) ∧
    (createIncident incidentBadInput 41 baseDB).2.incidents = baseDB.incidents ++
      [{ id := baseDB.nextId
         status_page_id := incidentBadInput.status_page_id
         title := incidentBadInput.title
         description := incidentBadInput.description
         status := incidentBadInput.status
         created_by := incidentBadInput.created_by
         created_at := 41
         updated_at := 41
         resolved_at := none }] ∧
    (createIncident incidentBadInput 41 baseDB).2.incidentAffectedComponents =
      baseDB.incidentAffectedComponents) ∧
    createIncident incidentBadInput 41 emptyDB =
      (.error (fkViolationMsg ("incidents")), emptyDB) := by
  constructor
  · exact createIncident_partial_commit.1 baseDB incidentBadInput 41
      rfl rfl (by decide) (by decide)
  · exact createIncident_partial_commit.2 emptyDB incidentBadInput 41 rfl

/-- Claim C9: the sparse-patch updates (`updateStatusPage`,
`updateComponent`, `updateIncident`) apply exactly the fields present in
the patch, keep every patchable field absent from the patch at its prior
value, never touch the non-patchable identity fields, and always refresh
`updated_at` — also on an empty patch carrying only the id. -/
theorem sparse_patch_updates :
    (∀ (db : DB) (input : UpdateStatusPageInput) (now : Time) (sp : StatusPage),
      db.findStatusPage input.id = some sp →
      ∃ sp2, (updateStatusPage input now db).1 = .ok sp2 ∧
        sp2.name = input.name.getD sp.name ∧
        sp2.description = input.description.getD sp.description ∧
        sp2.custom_domain = input.custom_domain.getD sp.custom_domain ∧
        sp2.branding_logo_url = input.branding_logo_url.getD sp.branding_logo_url ∧
        sp2.branding_primary_color =
          input.branding_primary_color.getD sp.branding_primary_color ∧
        sp2.branding_secondary_color =
          input.branding_secondary_color.getD sp.branding_secondary_color ∧
        sp2.is_public = input.is_public.getD sp.is_public ∧
        sp2.updated_at = now ∧ sp2.id = sp.id ∧
        sp2.organization_id = sp.organization_id ∧ sp2.slug = sp.slug ∧
        sp2.created_at = sp.created_at) ∧
    (∀ (db : DB) (input : UpdateComponentInput) (now : Time) (c : Component),
      db.findComponent input.id = some c →
      ∃ c2, (updateComponent input now db).1 = .ok c2 ∧
        c2.name = input.name.getD c.name ∧
        c2.description = input.description.getD c.description ∧
        c2.status = input.status.getD c.status ∧
        c2.position = input.position.getD c.position ∧
        c2.updated_at = now ∧ c2.id = c.id ∧
        c2.status_page_id = c.status_page_id ∧ c2.created_at = c.created_at) ∧
    (∀ (db : DB) (input : UpdateIncidentInput) (now : Time) (inc : Incident),
      db.findIncident input.id = some inc →
      ∃ inc2, (updateIncident input now db).1 = .ok inc2 ∧
        inc2.title = input.title.getD inc.title ∧
        inc2.description = input.description.getD inc.description ∧
        inc2.status = input.status.getD inc.status ∧
        (input.status = none → inc2.resolved_at = inc.resolved_at) ∧
        inc2.updated_at = now ∧ inc2.id = inc.id ∧
        inc2.status_page_id = inc.status_page_id ∧
        inc2.created_by = inc.created_by ∧ inc2.created_at = inc.created_at) := by
  refine ⟨?_, ?_, ?_⟩
  · intro db input now sp hfind
    refine ⟨applyStatusPagePatch input now sp, ?_, rfl, rfl, rfl, rfl, rfl, rfl,
      rfl, rfl, rfl, rfl, rfl, rfl⟩
    simp only [updateStatusPage, hfind]
  · intro db input now c hfind
    refine ⟨applyComponentPatch input now c, ?_, rfl, rfl, rfl, rfl, rfl, rfl,
      rfl, rfl⟩
    simp only [updateComponent, hfind]
  · intro db input now inc hfind
    refine ⟨applyIncidentPatch input now inc, ?_, rfl, rfl, rfl, ?_, rfl, rfl,
      rfl, rfl, rfl⟩
    · simp only [updateIncident, hfind]
    · intro hs
      simp [applyIncidentPatch, hs]

def sampleComponent : Component :=
  { id := 5, status_page_id := 1, name := "API", description := none
    status := .operational, position := 0, created_at := 0, updated_at := 0 }

def richDB : DB :=
  { baseDB with
      components := [sampleComponent]
      incidents := [resolvedIncident]
      nextId := 30 }

def emptyPagePatch : UpdateStatusPageInput :=
  { id := 1, name := none, description := none, custom_domain := none
    branding_logo_url := none, branding_primary_color := none
    branding_secondary_color := none, is_public := none }

def componentNamePatch : UpdateComponentInput :=
  { id := 5, name := some "API v2", description := none, status := none
    position := none }

def emptyIncidentPatch : UpdateIncidentInput :=
  { id := 10, title := none, description := none, status := none }

/-- Witness for claim C9: an empty status-page patch, a component patch
carrying one field, and an empty incident patch, at concrete rows. -/
theorem sparse_patch_updates_witness :
    (∃ sp2, (updateStatusPage emptyPagePatch 80 richDB).1 = .ok sp2 ∧
      sp2.name = emptyPagePatch.name.getD samplePage.name ∧
      sp2.description = emptyPagePatch.description.getD samplePage.description ∧
      sp2.custom_domain = emptyPagePatch.custom_domain.getD samplePage.custom_domain ∧
      sp2.branding_logo_url =
        emptyPagePatch.branding_logo_url.getD samplePage.branding_logo_url ∧
      sp2.branding_primary_color =
        emptyPagePatch.branding_primary_color.getD samplePage.branding_primary_color ∧
      sp2.branding_secondary_color =
        emptyPagePatch.branding_secondary_color.getD samplePage.branding_secondary_color ∧
      sp2.is_public = emptyPagePatch.is_public.getD samplePage.is_public ∧
      sp2.updated_at = 80 ∧ sp2.id = samplePage.id ∧
      sp2.organization_id = samplePage.organization_id ∧
      sp2.slug = samplePage.slug ∧ sp2.created_at = samplePage.created_at) ∧
    (∃ c2, (updateComponent componentNamePatch 80 richDB).1 = .ok c2 ∧
      c2.name = componentNamePatch.name.getD sampleComponent.name ∧
      c2.description = componentNamePatch.description.getD sampleComponent.description ∧
      c2.status = componentNamePatch.status.getD sampleComponent.status ∧
      c2.position = componentNamePatch.position.getD sampleComponent.position ∧
      c2.updated_at = 80 ∧ c2.id = sampleComponent.id ∧
      c2.status_page_id = sampleComponent.status_page_id ∧
      c2.created_at = sampleComponent.created_at) ∧
    (∃ inc2, (updateIncident emptyIncidentPatch 80 richDB).1 = .ok inc2 ∧
      inc2.title = emptyIncidentPatch.title.getD resolvedIncident.title ∧
      inc2.description =
        emptyIncidentPatch.description.getD resolvedIncident.description ∧
      inc2.status = emptyIncidentPatch.status.getD resolvedIncident.status ∧
      (emptyIncidentPatch.status = none →
        inc2.resolved_at = resolvedIncident.resolved_at) ∧
      inc2.updated_at = 80 ∧ inc2.id = resolvedIncident.id ∧
      inc2.status_page_id = resolvedIncident.status_page_id ∧
      inc2.created_by = resolvedIncident.created_by ∧
      inc2.created_at = resolvedIncident.created_at) := by
  refine ⟨?_, ?_, ?_⟩
  · exact sparse_patch_updates.1 richDB emptyPagePatch 80 samplePage rfl
  · exact sparse_patch_updates.2.1 richDB componentNamePatch 80 sampleComponent rfl
  · exact sparse_patch_updates.2.2 richDB emptyIncidentPatch 80 resolvedIncident rfl

/-- The per-parent delete loop of the cascade (a fold of filters) removes
exactly the rows keyed to some parent in the list. -/
theorem foldl_filter_eq_filter {β γ : Type} (key : β → Nat) (tag : γ → Nat) :
    ∀ (L : List γ) (init : List β),
      L.foldl (fun rs x => rs.filter (fun r => key r != tag x)) init
        = init.filter (fun r => !(L.any (fun x => key r == tag x))) := by
  intro L
  induction L with
  | nil => intro init; simp
  | cons x L ih =>
    intro init
    simp only [List.foldl_cons]
    rw [ih, List.filter_filter]
    refine List.filter_congr ?_
    intro a _
    simp only [List.any_cons, Bool.not_or, bne]
    cases h : (key a == tag x) <;> simp [h]

/-- Claim C6: `deleteStatusPage` on an existing page returns `true` and
removes exactly the rows scoped to that page — its components, incidents,
maintenance windows, the incident updates and junction rows keyed to its
incidents and windows, and finally the page row — while every row of a
sibling page (and every user / organization / member row) is untouched. -/
theorem deleteStatusPage_cascades :
    ∀ (db : DB) (id : Nat) (sp : StatusPage),
      db.findStatusPage id = some sp →
      (deleteStatusPage id db).1 = true ∧
      (deleteStatusPage id db).2.statusPages =
        db.statusPages.filter (fun p => p.id != id) ∧
      (deleteStatusPage id db).2.components =
        db.components.filter (fun c => c.status_page_id != id) ∧
      (deleteStatusPage id db).2.incidents =
        db.incidents.filter (fun i => i.status_page_id != id) ∧
      (deleteStatusPage id db).2.maintenanceWindows =
        db.maintenanceWindows.filter (fun w => w.status_page_id != id) ∧
      (deleteStatusPage id db).2.incidentUpdates =
        db.incidentUpdates.filter (fun u =>
          !((db.incidents.filter (fun i => i.status_page_id == id)).any
            (fun i => u.incident_id == i.id))) ∧
      (deleteStatusPage id db).2.incidentAffectedComponents =
        db.incidentAffectedComponents.filter (fun r =>
          !((db.incidents.filter (fun i => i.status_page_id == id)).any
            (fun i => r.incident_id == i.id))) ∧
      (deleteStatusPage id db).2.maintenanceAffectedComponents =
        db.maintenanceAffectedComponents.filter (fun r =>
          !((db.maintenanceWindows.filter (fun w => w.status_page_id == id)).any
            (fun w => r.maintenance_window_id == w.id))) ∧
      (deleteStatusPage id db).2.users = db.users ∧
      (deleteStatusPage id db).2.organizations = db.organizations ∧
      (deleteStatusPage id db).2.organizationMembers = db.organizationMembers := by
  intro db id sp hfind
  refine ⟨?_, ?_, ?_, ?_, ?_, ?_, ?_, ?_, ?_, ?_, ?_⟩ <;>
    simp only [deleteStatusPage, hfind]
  · exact foldl_filter_eq_filter (fun u : IncidentUpdate => u.incident_id)
      (fun i : Incident => i.id) _ _
  · exact foldl_filter_eq_filter
      (fun r : IncidentAffectedComponent => r.incident_id)
      (fun i : Incident => i.id) _ _
  · exact foldl_filter_eq_filter
      (fun r : MaintenanceAffectedComponent => r.maintenance_window_id)
      (fun w : MaintenanceWindow => w.id) _ _

def siblingPage : StatusPage := { samplePage with id := 2, slug := "second" }

def cascComp1 : Component := sampleComponent

def cascComp2 : Component := { sampleComponent with id := 6, status_page_id := 2 }

def cascInc1 : Incident := resolvedIncident

def cascInc2 : Incident := { resolvedIncident with id := 11, status_page_id := 2 }

def cascUpd1 : IncidentUpdate :=
  { id := 20, incident_id := 10, title := "u1", description := "d"
    status := .resolved, created_by := 1, created_at := 2 }

def cascUpd2 : IncidentUpdate := { cascUpd1 with id := 21, incident_id := 11 }

def cascMw1 : MaintenanceWindow := { scheduledWindow with id := 30 }

def cascMw2 : MaintenanceWindow :=
  { scheduledWindow with id := 31, status_page_id := 2 }

def cascIac1 : IncidentAffectedComponent :=
  { id := 40, incident_id := 10, component_id := 5, created_at := 2 }

def cascIac2 : IncidentAffectedComponent :=
  { id := 41, incident_id := 11, component_id := 6, created_at := 2 }

def cascMac1 : MaintenanceAffectedComponent :=
  { id := 50, maintenance_window_id := 30, component_id := 5, created_at := 2 }

def cascMac2 : MaintenanceAffectedComponent :=
  { id := 51, maintenance_window_id := 31, component_id := 6, created_at := 2 }

def cascadeDB : DB :=
  { users := [sampleUser]
    organizations := [sampleFreeOrg]
    statusPages := [samplePage, siblingPage]
    components := [cascComp1, cascComp2]
    incidents := [cascInc1, cascInc2]
    incidentUpdates := [cascUpd1, cascUpd2]
    maintenanceWindows := [cascMw1, cascMw2]
    organizationMembers := []
    incidentAffectedComponents := [cascIac1, cascIac2]
    maintenanceAffectedComponents := [cascMac1, cascMac2]
    nextId := 60 }

/-- Witness for claim C6: deleting page 1 of a two-page state keeps
exactly the rows of sibling page 2. -/
theorem deleteStatusPage_cascades_witness :
    (deleteStatusPage 1 cascadeDB).1 = true ∧
    (deleteStatusPage 1 cascadeDB).2.statusPages = [siblingPage] ∧
    (deleteStatusPage 1 cascadeDB).2.components = [cascComp2] ∧
    (deleteStatusPage 1 cascadeDB).2.incidents = [cascInc2] ∧
    (deleteStatusPage 1 cascadeDB).2.maintenanceWindows = [cascMw2] ∧
    (deleteStatusPage 1 cascadeDB).2.incidentUpdates = [cascUpd2] ∧
    (deleteStatusPage 1 cascadeDB).2.incidentAffectedComponents = [cascIac2] ∧
    (deleteStatusPage 1 cascadeDB).2.maintenanceAffectedComponents = [cascMac2] := by
  refine ⟨(deleteStatusPage_cascades cascadeDB 1 samplePage rfl).1,
    rfl, rfl, rfl, rfl, rfl, rfl, rfl⟩

end EdgeStatus
